import Mathlib

/-!
Shallow embedding of the semgrep-service microservice (src/semgrep-service/main.py).

The service accepts a batch of in-memory files, writes them into a fresh
scratch directory, runs the semgrep engine against the directory under a
timeout, classifies the process exit, parses the JSON output, and normalizes
findings (rule id, severity, category, path) before responding.

Python strings are modelled as Lean `String` (per-character operations act on
`String.data`, matching Python's per-code-point slicing and stripping).
The external process, the JSON decoder and the filesystem are modelled as
explicit parameters of the orchestration function `runScan`, which records a
trace of the observable effects (workspace creation, engine invocation,
workspace release, materialized target paths) alongside the HTTP result.
-/

namespace SemgrepService

/-- Python `s[:n]` on text: the first `n` characters. -/
def strTake (s : String) (n : Nat) : String := ⟨s.data.take n⟩

/-- Python `s[n:]` on text: drop the first `n` characters. -/
def strDrop (s : String) (n : Nat) : String := ⟨s.data.drop n⟩

/-- Python `s.lstrip(c)` for a single strip character: remove all leading
occurrences of `c`. -/
def lstripChar (c : Char) (s : String) : String := ⟨s.data.dropWhile (· == c)⟩

/-- Boolean character-list matching of `pre` against the front of `l`. -/
def isPrefixChars : List Char → List Char → Bool
  | [], _ => true
  | _ :: _, [] => false
  | a :: pre, b :: l => a == b && isPrefixChars pre l

/-- Python `s.startswith(pre)`. -/
def pyStartswith (s pre : String) : Bool := isPrefixChars pre.data s.data

/-- Python `str.upper` restricted to ASCII, which covers every severity token
the mapping distinguishes. -/
def pyUpper (s : String) : String := ⟨s.data.map Char.toUpper⟩

/-- Python `"." in s` (the needle is a single character, so substring
containment is character containment). -/
def containsDot (s : String) : Bool := s.data.contains '.'

/-- Python `s.rsplit(".", 1)[-1]`: the suffix of `s` after its last dot
(`s` itself when no dot occurs). -/
def rsplitLastDot (s : String) : String :=
  ⟨(s.data.reverse.takeWhile (· != '.')).reverse⟩

/-- `pathlib`'s `Path(base) / p` on POSIX: an absolute second operand replaces
the first, otherwise the components are joined with a separator. -/
def pyPathJoin (base p : String) : String :=
  if pyStartswith p "/" then p else base ++ "/" ++ p

/-- One request file: `FileInput(path, content)` from main.py. -/
structure FileInput where
  path : String
  content : String
  deriving Repr, DecidableEq

/-- `ScanRequest(files, rules_config)` from main.py; `rules_config` defaults
to `"custom"`. -/
structure ScanRequest where
  files : List FileInput
  rules_config : String := "custom"
  deriving Repr, DecidableEq

/-- Caller-facing `Finding` from main.py. -/
structure Finding where
  rule_id : String
  path : String
  line : Int
  message : String
  severity : String
  category : String
  deriving Repr, DecidableEq

/-- `ScanResponse(findings, duration_ms, files_scanned)` from main.py. -/
structure ScanResponse where
  findings : List Finding
  duration_ms : Nat
  files_scanned : Nat
  deriving Repr, DecidableEq

/-- FastAPI's `HTTPException(status_code, detail)` as raised by main.py. -/
structure HTTPError where
  status_code : Nat
  detail : String
  deriving Repr, DecidableEq

/-- One record of the engine's decoded JSON `results` array, with exactly the
fields main.py reads; a `none` field is one missing from the JSON object
(every `.get` default in the source is applied here in the parser). -/
structure RawResult where
  check_id : Option String
  path : Option String
  start_line : Option Int
  message : Option String
  severity : Option String
  deriving Repr, DecidableEq

/-- The engine's decoded JSON output, as far as main.py consumes it. -/
structure SemgrepOutput where
  results : List RawResult
  deriving Repr, DecidableEq

/-- `map_severity` from main.py: uppercase the token and look it up in the
fixed dictionary, defaulting to `"info"`. -/
def map_severity (semgrep_severity : String) : String :=
  if pyUpper semgrep_severity = "ERROR" then "error"
  else if pyUpper semgrep_severity = "WARNING" then "warning"
  else if pyUpper semgrep_severity = "INFO" then "info"
  else "info"

/-- The `security_rules` set literal inside `map_category` in main.py. -/
def security_rules : List String :=
  ["hardcoded-secret-generic", "sql-string-concat", "weak-crypto-md5",
   "weak-crypto-sha1", "js-eval-usage", "js-innerhtml", "python-exec",
   "python-subprocess-shell", "go-sql-format", "rust-unsafe-block",
   "path-traversal-python", "path-traversal-go", "path-traversal-node",
   "command-injection-go", "command-injection-node",
   "ssrf-python", "ssrf-node",
   "insecure-deserialize-python", "insecure-deserialize-java",
   "java-unsafe-reflection", "log-injection"]

/-- `map_category` from main.py. -/
def map_category (rule_id : String) : String :=
  if security_rules.contains rule_id then "security"
  else if rule_id = "test-todo-skip" then "quality"
  else "security"

/-- The rule-id rewrite inside `parse_semgrep_output`: when the (already
defaulted) `check_id` contains a dot, keep only `rsplit(".", 1)[-1]`. -/
def strip_check_id (check_id : String) : String :=
  if containsDot check_id then rsplitLastDot check_id else check_id

/-- The body of the loop in `parse_semgrep_output` in main.py, for one raw
result record: apply each `.get` default, rewrite the rule id, and map
severity and category. -/
def parse_one (r : RawResult) : Finding :=
  let check_id := strip_check_id (r.check_id.getD "unknown")
  { rule_id := check_id
  , path := r.path.getD ""
  , line := (r.start_line).getD 0
  , message := r.message.getD ""
  , severity := map_severity (r.severity.getD "INFO")
  , category := map_category check_id }

/-- `parse_semgrep_output` from main.py. -/
def parse_semgrep_output (output : SemgrepOutput) : List Finding :=
  output.results.map parse_one

/-- The path rewrite in `scan` (main.py lines 182-184): when the finding path
starts with the scratch directory, drop that prefix and then
`.lstrip("/").lstrip("\\")`. -/
def normalize_finding_path (tmpdir p : String) : String :=
  if pyStartswith p tmpdir then
    lstripChar '\\' (lstripChar '/' (strDrop p tmpdir.length))
  else p

/-- The bundled ruleset path `RULES_PATH` of main.py, abstracted to the
string passed to the engine. -/
def RULES_PATH : String := "rules.yml"

/-- The ruleset selection in `scan` (main.py lines 139-144): the exact string
`"auto"` selects the registry; every other value selects the bundled
`rules.yml`, failing with a 500 configuration error when that file is
missing. -/
def configSelect (rules_config : String) (rules_exists : Bool) :
    Except HTTPError String :=
  if rules_config = "auto" then .ok "auto"
  else if rules_exists then .ok RULES_PATH
  else .error ⟨500, "rules.yml not found"⟩

/-- Result of the external `subprocess.run` call: either the process
completed with an exit code and captured streams, or `TimeoutExpired`. -/
inductive ProcResult where
  | completed (returncode : Int) (stdout : String) (stderr : String)
  | timedOut
  deriving Repr, DecidableEq

/-- Process-exit classification outcome of the invoker. -/
inductive ExitClass where
  | success
  | toolFailure (detail : String)
  deriving Repr, DecidableEq

/-- The exit-code check in `scan` (main.py lines 163-168): 0 and 1 are
success; any other code is a tool failure carrying `stderr[:500]`. -/
def classify_exit (returncode : Int) (stderr : String) : ExitClass :=
  if returncode = 0 ∨ returncode = 1 then .success
  else .toolFailure ("Semgrep error: " ++ strTake stderr 500)

deriving instance DecidableEq for Except

/-- Observable trace of one `scan` request: the HTTP result plus which
side effects ran. -/
structure ScanTrace where
  result : Except HTTPError ScanResponse
  workspaceCreated : Bool
  engineInvoked : Bool
  workspaceReleased : Bool
  materializedPaths : List String
  deriving Repr, DecidableEq

/-- The `try` body of `scan` after the workspace exists: select the ruleset,
run the engine (`proc`), classify the exit, decode JSON (`jsonParse` models
`json.loads`, `none` being `JSONDecodeError`), normalize findings and paths,
and build the response. -/
def scanBody (req : ScanRequest) (tmpdir : String) (rules_exists : Bool)
    (proc : ProcResult) (jsonParse : String → Option SemgrepOutput)
    (duration_ms : Nat) : Except HTTPError ScanResponse :=
  match configSelect req.rules_config rules_exists with
  | .error e => .error e
  | .ok _ =>
    match proc with
    | .timedOut => .error ⟨504, "Semgrep scan timed out"⟩
    | .completed rc out err =>
      match classify_exit rc err with
      | .toolFailure d => .error ⟨500, d⟩
      | .success =>
        match jsonParse out with
        | none =>
          .error ⟨500, "Failed to parse Semgrep output: " ++ strTake out 200⟩
        | some output =>
          .ok { findings :=
                  (parse_semgrep_output output).map
                    (fun f => { f with
                                path := normalize_finding_path tmpdir f.path })
              , duration_ms := duration_ms
              , files_scanned := req.files.length }

/-- `scan` from main.py, as a trace: empty file lists short-circuit before
any workspace exists; otherwise the workspace is created, every file is
written to `Path(tmpdir) / file.path` with no boundary check, the body runs,
and the `finally` block releases the workspace on every path.
`cleanupFails` models an error inside `shutil.rmtree`; it is passed
`ignore_errors=True` in the source, so the trace does not depend on it. -/
def runScan (req : ScanRequest) (tmpdir : String) (rules_exists : Bool)
    (proc : ProcResult) (jsonParse : String → Option SemgrepOutput)
    (duration_ms : Nat) (cleanupFails : Bool) : ScanTrace :=
  match req.files with
  | [] =>
    { result := .ok { findings := [], duration_ms := 0, files_scanned := 0 }
    , workspaceCreated := false
    , engineInvoked := false
    , workspaceReleased := false
    , materializedPaths := [] }
  | _ :: _ =>
    { result := scanBody req tmpdir rules_exists proc jsonParse duration_ms
    , workspaceCreated := true
    , engineInvoked :=
        match configSelect req.rules_config rules_exists with
        | .ok _ => true
        | .error _ => false
    , workspaceReleased := true
    , materializedPaths := req.files.map (fun f => pyPathJoin tmpdir f.path) }

/-- Split a character list at every slash (the components of a POSIX
path). -/
def splitSlash : List Char → List (List Char)
  | [] => [[]]
  | c :: rest =>
    if c = '/' then [] :: splitSlash rest
    else
      match splitSlash rest with
      | [] => [[c]]
      | h :: t => (c :: h) :: t

/-- Join components back with slashes. -/
def joinSlash : List (List Char) → List Char
  | [] => []
  | [c] => c
  | c :: rest => c ++ '/' :: joinSlash rest

/-- Lexical POSIX resolution of an absolute path's components: empty and `.`
components vanish, `..` removes the previous component (at the root, `..`
stays at the root). -/
def resolveComps : List (List Char) → List (List Char) → List (List Char)
  | acc, [] => acc
  | acc, c :: rest =>
    if c = [] ∨ c = ['.'] then resolveComps acc rest
    else if c = ['.', '.'] then resolveComps acc.dropLast rest
    else resolveComps (acc ++ [c]) rest

/-- Normal form of an absolute path after resolving `.` and `..`. -/
def normalizePath (p : String) : String :=
  ⟨'/' :: joinSlash (resolveComps [] (splitSlash p.data))⟩

/-- Whether the absolute path `p`, after lexical normalization, lies inside
the directory `root` (equal to it or strictly below it). -/
def insideRoot (root p : String) : Bool :=
  normalizePath p = normalizePath root ||
    pyStartswith (normalizePath p) (normalizePath root ++ "/")

/-- A JSON decoder stand-in that rejects every string (decode failure). -/
def noParse : String → Option SemgrepOutput := fun _ => none

/-- A JSON decoder stand-in that decodes every string to an empty results
object. -/
def emptyParse : String → Option SemgrepOutput := fun _ => some { results := [] }

/-- Concrete scan request carrying one file whose relative path climbs out
of the workspace with a `..` component. -/
def traversalRequest : ScanRequest :=
  { files := [{ path := "../evil.py", content := "attack" }] }

/-- The trace of the traversal request against a fresh workspace, with the
bundled ruleset present and an engine run that exits 0 with empty results. -/
def traversalTrace : ScanTrace :=
  runScan traversalRequest "/tmp/semgrep-scan-abc123" true
    (.completed 0 "{}" "") emptyParse 5 false

/-! ### Helper lemmas -/

theorem length_strTake (s : String) (n : Nat) : (strTake s n).length ≤ n := by
  simp [strTake]

theorem isPrefixChars_self_append (l t : List Char) :
    isPrefixChars l (l ++ t) = true := by
  induction l with
  | nil => rfl
  | cons a as ih => simp [isPrefixChars, ih]

theorem isPrefixChars_cons_false {a : Char} {pre l : List Char}
    (h : l.head? ≠ some a) : isPrefixChars (a :: pre) l = false := by
  cases l with
  | nil => rfl
  | cons b bs =>
    have hne : a ≠ b := by
      intro he
      exact h (by simp [he])
    simp [isPrefixChars, hne]

theorem pyStartswith_append (s t : String) : pyStartswith (s ++ t) s = true := by
  simp only [pyStartswith, String.data_append]
  exact isPrefixChars_self_append s.data t.data

theorem strDrop_append (s t : String) : strDrop (s ++ t) s.length = t := by
  cases s with
  | mk l =>
    cases t with
    | mk m =>
      simp [strDrop, String.length, List.drop_left]

theorem head_dropWhile_false (p : Char → Bool) (l : List Char) (a : Char)
    (h : (l.dropWhile p).head? = some a) : p a = false := by
  have h2 := List.head?_dropWhile_not p l
  rw [h] at h2
  exact h2

theorem dropWhile_of_head_ne (p : Char → Bool) (l : List Char)
    (h : ∀ a, l.head? = some a → p a = false) : l.dropWhile p = l := by
  cases l with
  | nil => rfl
  | cons b bs =>
    have hb := h b rfl
    simp [List.dropWhile_cons, hb]

theorem takeWhile_append_stop (p : Char → Bool) (l : List Char) (x : Char)
    (t : List Char) (hl : ∀ a ∈ l, p a = true) (hx : p x = false) :
    (l ++ x :: t).takeWhile p = l := by
  rw [List.takeWhile_append_of_pos hl]
  simp [List.takeWhile_cons, hx]

theorem contains_append_dot (l m : List Char) :
    (l ++ '.' :: m).contains '.' = true := by
  induction l with
  | nil => simp
  | cons c cs ih => simp [ih]

theorem containsDot_append_dot (a b : String) :
    containsDot (a ++ "." ++ b) = true := by
  cases a with
  | mk l =>
    cases b with
    | mk m =>
      have hdata : ((String.mk l ++ "." ++ String.mk m) : String).data
          = l ++ '.' :: m := by
        simp [String.data_append]
      simp [containsDot, hdata, contains_append_dot]

theorem not_dot_of_no_dot (b : List Char) (hb : b.contains '.' = false) :
    ∀ a ∈ b, (a != '.') = true := by
  intro a ha
  rw [List.contains_eq_any_beq] at hb
  rw [List.any_eq_false] at hb
  have := hb a ha
  simp only [bne]
  cases hbeq : (a == '.') with
  | false => rfl
  | true =>
    have ha' : a = '.' := eq_of_beq hbeq
    rw [ha'] at this
    exact absurd (by decide) this

theorem rsplitLastDot_append (a b : String) (hb : containsDot b = false) :
    rsplitLastDot (a ++ "." ++ b) = b := by
  cases a with
  | mk l =>
    cases b with
    | mk m =>
      have hdata : ((String.mk l ++ "." ++ String.mk m) : String).data
          = l ++ '.' :: m := by
        simp [String.data_append]
      have hm : ∀ c ∈ m.reverse, (c != '.') = true := by
        intro c hc
        exact not_dot_of_no_dot m (by simpa [containsDot] using hb) c
          (List.mem_reverse.mp hc)
      have hrev : (l ++ '.' :: m).reverse = m.reverse ++ '.' :: l.reverse := by
        simp [List.reverse_append]
      have hdot : (('.' : Char) != '.') = false := by decide
      simp only [rsplitLastDot, hdata, hrev]
      rw [takeWhile_append_stop _ _ _ _ hm hdot]
      simp

theorem configSelect_ok (rules_config : String) (re : Bool)
    (h : rules_config = "auto" ∨ re = true) :
    ∃ cfg, configSelect rules_config re = .ok cfg := by
  unfold configSelect
  rcases h with h | h
  · exact ⟨"auto", by simp [h]⟩
  · by_cases h2 : rules_config = "auto"
    · exact ⟨"auto", by simp [h2]⟩
    · exact ⟨RULES_PATH, by simp [h2, h]⟩

/-! ### Claims -/

/-- Claim C3: severity mapping is total and closed — for every raw token the
mapped value is one of error/warning/info; the tokens ERROR, WARNING, INFO
match case-insensitively (via uppercasing) to error, warning, info; any
unrecognized token, and a missing token (defaulted to INFO by the parser),
maps to info. -/
theorem claim_C3_severity_total (s : String) (r : RawResult) :
    (map_severity s = "error" ∨ map_severity s = "warning" ∨
      map_severity s = "info") ∧
    (pyUpper s = "ERROR" → map_severity s = "error") ∧
    (pyUpper s = "WARNING" → map_severity s = "warning") ∧
    (pyUpper s = "INFO" → map_severity s = "info") ∧
    (pyUpper s ≠ "ERROR" → pyUpper s ≠ "WARNING" → pyUpper s ≠ "INFO" →
      map_severity s = "info") ∧
    (r.severity = none → (parse_one r).severity = "info") := by
  refine ⟨?_, ?_, ?_, ?_, ?_, ?_⟩
  · unfold map_severity
    split_ifs <;> simp
  · intro h; simp [map_severity, h]
  · intro h; simp [map_severity, h]
  · intro h; simp [map_severity, h]
  · intro h1 h2 h3; simp [map_severity, h1, h2, h3]
  · intro h
    simp only [parse_one, h, Option.getD]
    decide

/-- Witness for C3 at concrete inputs: the mixed-case token "Error"
uppercases to ERROR and maps to error. -/
theorem claim_C3_severity_total_witness :
    pyUpper "Error" = "ERROR" ∧ map_severity "Error" = "error" :=
  ⟨by decide,
    (claim_C3_severity_total "Error"
      { check_id := none, path := none, start_line := none,
        message := none, severity := none }).2.1 (by decide)⟩

/-- Claim C4: the category mapping yields quality exactly for the reserved
identifier test-todo-skip, and security for every other rule id, including
ids absent from the security allow-list. -/
theorem claim_C4_category (rule_id : String) :
    (map_category rule_id = "quality" ↔ rule_id = "test-todo-skip") ∧
    (rule_id ≠ "test-todo-skip" → map_category rule_id = "security") ∧
    (map_category rule_id = "security" ∨ map_category rule_id = "quality") := by
  by_cases h : security_rules.contains rule_id = true
  · have hne : rule_id ≠ "test-todo-skip" := by
      intro he
      rw [he] at h
      exact absurd h (by decide)
    simp [map_category, h, hne]
  · have h' : security_rules.contains rule_id = false := by
      cases hc : security_rules.contains rule_id
      · rfl
      · exact absurd hc h
    by_cases h2 : rule_id = "test-todo-skip"
    · subst h2
      exact ⟨by decide, by decide, by decide⟩
    · simp [map_category, h', h2]

/-- Witness for C4 at a concrete input: the unrecognized id "zzz" is not the
reserved quality id and maps to security. -/
theorem claim_C4_category_witness :
    ("zzz" : String) ≠ "test-todo-skip" ∧ map_category "zzz" = "security" :=
  ⟨by decide, (claim_C4_category "zzz").2.1 (by decide)⟩

/-- Claim C7: the caller-facing rule id is the final segment of the engine's
dotted identifier (suffix after the last dot); an identifier with no dot is
kept unchanged; a missing identifier yields the literal "unknown". -/
theorem claim_C7_rule_id (r : RawResult) (s a b : String) :
    (r.check_id = none → (parse_one r).rule_id = "unknown") ∧
    (r.check_id = some s → containsDot s = false → (parse_one r).rule_id = s) ∧
    (r.check_id = some (a ++ "." ++ b) → containsDot b = false →
      (parse_one r).rule_id = b) := by
  refine ⟨?_, ?_, ?_⟩
  · intro h
    simp only [parse_one, h, Option.getD]
    decide
  · intro h hs
    simp only [parse_one, h, Option.getD, strip_check_id, hs]
    simp
  · intro h hb
    simp only [parse_one, h, Option.getD, strip_check_id,
      containsDot_append_dot, if_true]
    exact rsplitLastDot_append a b hb

/-- Witness for C7 at a concrete input: the dotted engine id
rules.js-eval-usage yields the caller-facing id js-eval-usage. -/
theorem claim_C7_rule_id_witness :
    (parse_one
      { check_id := some "rules.js-eval-usage", path := none,
        start_line := none, message := none, severity := none }).rule_id =
      "js-eval-usage" :=
  (claim_C7_rule_id
    { check_id := some "rules.js-eval-usage", path := none,
      start_line := none, message := none, severity := none }
    "" "rules" "js-eval-usage").2.2 (by decide) (by decide)

theorem scanBody_ok_files_scanned (req : ScanRequest) (tmpdir : String)
    (re : Bool) (proc : ProcResult) (jp : String → Option SemgrepOutput)
    (dur : Nat) (resp : ScanResponse)
    (h : scanBody req tmpdir re proc jp dur = .ok resp) :
    resp.files_scanned = req.files.length := by
  unfold scanBody at h
  cases hc : configSelect req.rules_config re with
  | error e => rw [hc] at h; simp at h
  | ok cfg =>
    rw [hc] at h
    dsimp only at h
    cases proc with
    | timedOut => simp at h
    | completed rc out err =>
      dsimp only at h
      cases hce : classify_exit rc err with
      | toolFailure d => rw [hce] at h; simp at h
      | success =>
        rw [hce] at h
        dsimp only at h
        cases hj : jp out with
        | none => rw [hj] at h; simp at h
        | some o =>
          rw [hj] at h
          simp only [Except.ok.injEq] at h
          rw [← h]

/-- Claim C2: the invoker classifies exit code 0 as success, exit code 1
also as success, and every other exit code as a tool failure carrying the
first 500 characters of the error stream, surfaced as the 500 outcome. -/
theorem claim_C2_exit_codes (rc : Int) (out err : String) :
    classify_exit 0 err = .success ∧
    classify_exit 1 err = .success ∧
    (rc ≠ 0 → rc ≠ 1 →
      classify_exit rc err =
        .toolFailure ("Semgrep error: " ++ strTake err 500) ∧
      (strTake err 500).length ≤ 500) ∧
    (∀ (req : ScanRequest) (tmpdir : String) (re : Bool)
        (jp : String → Option SemgrepOutput) (dur : Nat),
      (req.rules_config = "auto" ∨ re = true) → rc ≠ 0 → rc ≠ 1 →
      scanBody req tmpdir re (.completed rc out err) jp dur =
        .error ⟨500, "Semgrep error: " ++ strTake err 500⟩) := by
  refine ⟨by simp [classify_exit], by simp [classify_exit], ?_, ?_⟩
  · intro h0 h1
    exact ⟨by simp [classify_exit, h0, h1], length_strTake err 500⟩
  · intro req tmpdir re jp dur hcfg h0 h1
    obtain ⟨cfg, hc⟩ := configSelect_ok req.rules_config re hcfg
    unfold scanBody
    rw [hc]
    simp [classify_exit, h0, h1]

/-- Witness for C2 at concrete inputs: exit code 2 with error stream "boom"
is a tool failure with that stream embedded truncation-bounded, and the
whole scan surfaces it as the 500 outcome. -/
theorem claim_C2_exit_codes_witness :
    (2 : Int) ≠ 0 ∧ (2 : Int) ≠ 1 ∧
    scanBody { files := [{ path := "a.js", content := "x" }] } "/tmp/w" true
        (.completed 2 "" "boom") noParse 7 =
      .error ⟨500, "Semgrep error: " ++ strTake "boom" 500⟩ :=
  ⟨by decide, by decide,
    (claim_C2_exit_codes 2 "" "boom").2.2.2
      { files := [{ path := "a.js", content := "x" }] } "/tmp/w" true
      noParse 7 (Or.inr rfl) (by decide) (by decide)⟩

/-- Claim C8: on a success exit code (0 or 1) whose output fails to decode
as JSON, the scan yields a 500 tool-failure outcome carrying the first 200
characters of the raw output, and cleanup still runs. -/
theorem claim_C8_malformed_output (req : ScanRequest) (tmpdir : String)
    (re : Bool) (rc : Int) (out err : String)
    (jp : String → Option SemgrepOutput) (dur : Nat) (cf : Bool)
    (hfiles : req.files ≠ [])
    (hcfg : req.rules_config = "auto" ∨ re = true)
    (hrc : rc = 0 ∨ rc = 1)
    (hjson : jp out = none) :
    (runScan req tmpdir re (.completed rc out err) jp dur cf).result =
      .error ⟨500, "Failed to parse Semgrep output: " ++ strTake out 200⟩ ∧
    (strTake out 200).length ≤ 200 ∧
    (runScan req tmpdir re (.completed rc out err) jp dur cf).workspaceReleased
      = true := by
  obtain ⟨cfg, hc⟩ := configSelect_ok req.rules_config re hcfg
  cases hf : req.files with
  | nil => exact absurd hf hfiles
  | cons f fs =>
    have hbody : scanBody req tmpdir re (.completed rc out err) jp dur =
        .error ⟨500, "Failed to parse Semgrep output: " ++ strTake out 200⟩ := by
      unfold scanBody
      rw [hc]
      dsimp only
      have hsucc : classify_exit rc err = .success := by
        simp [classify_exit, hrc]
      rw [hsucc]
      dsimp only
      rw [hjson]
    refine ⟨?_, length_strTake out 200, ?_⟩ <;> simp [runScan, hf, hbody]

/-- Witness for C8 at concrete inputs: exit code 0 with undecodable output
"not json" yields the 500 malformed-output error. -/
theorem claim_C8_malformed_output_witness :
    ({ files := [{ path := "a.js", content := "x" }] } : ScanRequest).files
      ≠ [] ∧
    (runScan { files := [{ path := "a.js", content := "x" }] } "/tmp/w" true
        (.completed 0 "not json" "") noParse 7 false).result =
      .error ⟨500, "Failed to parse Semgrep output: " ++ strTake "not json" 200⟩ :=
  ⟨by decide,
    (claim_C8_malformed_output
      { files := [{ path := "a.js", content := "x" }] } "/tmp/w" true 0
      "not json" "" noParse 7 false (by decide) (Or.inr rfl)
      (Or.inl rfl) rfl).1⟩

/-- Claim C9: an empty file list short-circuits to the exact response
findings=[], durationMs=0, filesScanned=0 with no engine invocation and no
workspace; and every successful response reports filesScanned equal to the
number of input files. -/
theorem claim_C9_empty_and_count (req : ScanRequest) (tmpdir : String)
    (re : Bool) (proc : ProcResult) (jp : String → Option SemgrepOutput)
    (dur : Nat) (cf : Bool) :
    (req.files = [] →
      runScan req tmpdir re proc jp dur cf =
        { result := .ok { findings := [], duration_ms := 0, files_scanned := 0 }
        , workspaceCreated := false
        , engineInvoked := false
        , workspaceReleased := false
        , materializedPaths := [] }) ∧
    (∀ resp : ScanResponse,
      (runScan req tmpdir re proc jp dur cf).result = .ok resp →
      resp.files_scanned = req.files.length) := by
  constructor
  · intro h
    simp [runScan, h]
  · intro resp h
    obtain ⟨files, rcfg⟩ := req
    cases files with
    | nil =>
      simp only [runScan] at h
      simp only [Except.ok.injEq] at h
      rw [← h]
      rfl
    | cons f fs =>
      simp only [runScan] at h
      exact scanBody_ok_files_scanned
        { files := f :: fs, rules_config := rcfg } tmpdir re proc jp dur resp h

/-- Witness for C9 at concrete inputs: the empty request short-circuits, and
a completed two-file request reports filesScanned = 2. -/
theorem claim_C9_empty_and_count_witness :
    (runScan { files := [] } "/tmp/w" true (.completed 0 "{}" "")
        emptyParse 7 false).result =
      .ok { findings := [], duration_ms := 0, files_scanned := 0 } ∧
    ({ findings := [], duration_ms := 7, files_scanned := 2 }
        : ScanResponse).files_scanned =
      ({ files := [{ path := "a.js", content := "x" },
                   { path := "b.js", content := "y" }] }
        : ScanRequest).files.length :=
  ⟨by rw [(claim_C9_empty_and_count { files := [] } "/tmp/w" true
      (.completed 0 "{}" "") emptyParse 7 false).1 rfl],
   (claim_C9_empty_and_count
      { files := [{ path := "a.js", content := "x" },
                  { path := "b.js", content := "y" }] } "/tmp/w" true
      (.completed 0 "{}" "") emptyParse 7 false).2
      { findings := [], duration_ms := 7, files_scanned := 2 } (by decide)⟩

/-- Claim C10: every rules_config value other than the exact string "auto"
selects the bundled custom ruleset (with the missing-file 500 configuration
error when the file is absent), behaving exactly like "custom"; no
rules_config value is rejected as invalid — the only possible error is the
missing-ruleset one. -/
theorem claim_C10_rules_config (rules_config : String) (re : Bool)
    (h : rules_config ≠ "auto") :
    configSelect rules_config re = configSelect "custom" re ∧
    (re = true → configSelect rules_config re = .ok RULES_PATH) ∧
    (re = false →
      configSelect rules_config re = .error ⟨500, "rules.yml not found"⟩) ∧
    (∀ (rc2 : String) (re2 : Bool) (e : HTTPError),
      configSelect rc2 re2 = .error e →
      e = ⟨500, "rules.yml not found"⟩ ∧ re2 = false) := by
  refine ⟨?_, ?_, ?_, ?_⟩
  · cases re <;> simp [configSelect, h]
  · intro hre; simp [configSelect, h, hre]
  · intro hre; simp [configSelect, h, hre]
  · intro rc2 re2 e he
    unfold configSelect at he
    by_cases h2 : rc2 = "auto"
    · rw [if_pos h2] at he
      exact absurd he (by simp)
    · rw [if_neg h2] at he
      cases re2 with
      | true => simp at he
      | false =>
        simp at he
        exact ⟨he.symm, rfl⟩

/-- Witness for C10 at a concrete input: the undocumented value "weird" is
treated exactly like "custom" and selects the bundled ruleset when it
exists. -/
theorem claim_C10_rules_config_witness :
    ("weird" : String) ≠ "auto" ∧
    configSelect "weird" true = .ok RULES_PATH :=
  ⟨by decide, (claim_C10_rules_config "weird" true (by decide)).2.1 rfl⟩

/-- Claim C6: for every request that creates a workspace, the workspace is
released on every code path; the trace never depends on whether the deletion
fails (rmtree runs with ignore_errors); and an engine timeout yields the 504
outcome, whose error value differs from every 500 tool-failure value. -/
theorem claim_C6_timeout_cleanup (req : ScanRequest) (tmpdir : String)
    (re : Bool) (proc : ProcResult) (jp : String → Option SemgrepOutput)
    (dur : Nat) (cf cf' : Bool) (hfiles : req.files ≠ []) :
    (runScan req tmpdir re proc jp dur cf).workspaceCreated = true ∧
    (runScan req tmpdir re proc jp dur cf).workspaceReleased = true ∧
    runScan req tmpdir re proc jp dur cf =
      runScan req tmpdir re proc jp dur cf' ∧
    (proc = .timedOut → (req.rules_config = "auto" ∨ re = true) →
      (runScan req tmpdir re proc jp dur cf).result =
        .error ⟨504, "Semgrep scan timed out"⟩ ∧
      ∀ d : String,
        ((⟨504, "Semgrep scan timed out"⟩ : HTTPError) ≠ ⟨500, d⟩)) := by
  cases hf : req.files with
  | nil => exact absurd hf hfiles
  | cons f fs =>
    refine ⟨by simp [runScan, hf], by simp [runScan, hf],
      by simp [runScan, hf], ?_⟩
    intro hp hcfg
    subst hp
    obtain ⟨cfg, hc⟩ := configSelect_ok req.rules_config re hcfg
    constructor
    · have hbody : scanBody req tmpdir re .timedOut jp dur =
          .error ⟨504, "Semgrep scan timed out"⟩ := by
        unfold scanBody
        rw [hc]
      simp [runScan, hf, hbody]
    · intro d hd
      have h504 : (504 : Nat) = 500 := congrArg HTTPError.status_code hd
      exact absurd h504 (by decide)

/-- Witness for C6 at concrete inputs: a one-file request whose engine run
times out releases its workspace and returns the 504 timeout error. -/
theorem claim_C6_timeout_cleanup_witness :
    (runScan { files := [{ path := "a.js", content := "x" }] } "/tmp/w" true
        .timedOut noParse 7 false).workspaceReleased = true ∧
    (runScan { files := [{ path := "a.js", content := "x" }] } "/tmp/w" true
        .timedOut noParse 7 false).result =
      .error ⟨504, "Semgrep scan timed out"⟩ :=
  ⟨(claim_C6_timeout_cleanup
      { files := [{ path := "a.js", content := "x" }] } "/tmp/w" true
      .timedOut noParse 7 false false (by decide)).2.1,
   ((claim_C6_timeout_cleanup
      { files := [{ path := "a.js", content := "x" }] } "/tmp/w" true
      .timedOut noParse 7 false false (by decide)).2.2.2 rfl
      (Or.inr rfl)).1⟩

/-- Claim C1 is contradicted by the code: the materialization loop joins
each request path onto the workspace root with no boundary check, so a file
whose relative path climbs above the root with a `..` component is written
to a target that lexically resolves outside the workspace, the request is
not rejected, the engine is still invoked, and the scan returns a success
response. -/
theorem claim_C1_traversal_not_rejected :
    traversalTrace.engineInvoked = true ∧
    traversalTrace.materializedPaths =
      ["/tmp/semgrep-scan-abc123/../evil.py"] ∧
    insideRoot "/tmp/semgrep-scan-abc123"
      "/tmp/semgrep-scan-abc123/../evil.py" = false ∧
    normalizePath "/tmp/semgrep-scan-abc123/../evil.py" = "/tmp/evil.py" ∧
    traversalTrace.result =
      .ok { findings := [], duration_ms := 5, files_scanned := 1 } := by
  refine ⟨rfl, by decide, by decide, by decide, by decide⟩

/-- Claim C5 as stated is false at a concrete input: the raw path
root ++ "/" ++ "\x5c/a.js" is absolute under the workspace root, yet its
normalized form "/a.js" still begins with a path separator — the rewrite
strips leading slashes and then leading backslashes in one pass each, so a
slash behind a backslash survives. -/
theorem claim_C5_counterexample :
    normalize_finding_path "/tmp/semgrep-scan-abc123"
        ("/tmp/semgrep-scan-abc123" ++ "/" ++ "\\/a.js") = "/a.js" ∧
    pyStartswith "/a.js" "/" = true := by
  refine ⟨by decide, by decide⟩

/-- Claim C5, amended: the rewrite strips the workspace-root prefix, then
all leading slashes, then all leading backslashes, in that order; for every
raw path root ++ "/" ++ rest whose remainder after the leading slashes does
not begin with a backslash, the result is the remainder with the leading
slashes removed, begins with neither a slash nor the workspace root; and a
raw path that does not begin with the workspace root is returned
unchanged. -/
theorem claim_C5_amended (tmpdir rest p : String)
    (hroot : pyStartswith tmpdir "/" = true)
    (hp : p = tmpdir ++ "/" ++ rest)
    (hback : (lstripChar '/' ("/" ++ rest)).data.head? ≠ some '\\') :
    normalize_finding_path tmpdir p = lstripChar '/' ("/" ++ rest) ∧
    pyStartswith (normalize_finding_path tmpdir p) "/" = false ∧
    pyStartswith (normalize_finding_path tmpdir p) tmpdir = false ∧
    (∀ q : String, pyStartswith q tmpdir = false →
      normalize_finding_path tmpdir q = q) := by
  have hassoc : p = tmpdir ++ ("/" ++ rest) := by
    rw [hp, String.append_assoc]
  have hpre : pyStartswith p tmpdir = true := by
    rw [hassoc]
    exact pyStartswith_append tmpdir ("/" ++ rest)
  have hdrop : strDrop p tmpdir.length = "/" ++ rest := by
    rw [hassoc]
    exact strDrop_append tmpdir ("/" ++ rest)
  set x := lstripChar '/' ("/" ++ rest) with hx
  have hxhead : ∀ a, x.data.head? = some a → (a == '/') = false := by
    intro a ha
    have ha2 : (("/" ++ rest).data.dropWhile (· == '/')).head? = some a := by
      simpa [lstripChar, hx] using ha
    exact head_dropWhile_false (· == '/') ("/" ++ rest).data a ha2
  have hstrip2 : lstripChar '\\' x = x := by
    have hdw : x.data.dropWhile (· == '\\') = x.data := by
      apply dropWhile_of_head_ne
      intro a ha
      cases hbeq : (a == '\\') with
      | false => rfl
      | true =>
        have ha' : a = '\\' := eq_of_beq hbeq
        rw [ha'] at ha
        exact absurd ha hback
    unfold lstripChar
    rw [hdw]
  have hnorm : normalize_finding_path tmpdir p = x := by
    simp only [normalize_finding_path, hpre, if_true]
    rw [hdrop]
    rw [← hx]
    exact hstrip2
  have hxnoslash : pyStartswith x "/" = false := by
    have hdata : ("/" : String).data = ['/'] := rfl
    simp only [pyStartswith, hdata]
    apply isPrefixChars_cons_false
    intro hhead
    exact absurd (hxhead '/' hhead) (by decide)
  have htmp : pyStartswith x tmpdir = false := by
    cases hd : tmpdir.data with
    | nil =>
      have hroot2 := hroot
      simp only [pyStartswith, hd] at hroot2
      exact absurd hroot2 (by decide)
    | cons c t =>
      have hroot2 := hroot
      simp only [pyStartswith, hd] at hroot2
      have hc : c = '/' := by
        simp [isPrefixChars] at hroot2
        exact hroot2.symm
      simp only [pyStartswith, hd, hc]
      apply isPrefixChars_cons_false
      intro hhead
      exact absurd (hxhead '/' hhead) (by decide)
  refine ⟨hnorm, ?_, ?_, ?_⟩
  · rw [hnorm]
    exact hxnoslash
  · rw [hnorm]
    exact htmp
  · intro q hq
    simp [normalize_finding_path, hq]

/-- Witness for the amended C5 at concrete inputs: the raw path
root ++ "/" ++ "src/a.js" normalizes to "src/a.js", which begins with
neither a separator nor the workspace root. -/
theorem claim_C5_amended_witness :
    normalize_finding_path "/tmp/semgrep-scan-abc123"
        ("/tmp/semgrep-scan-abc123" ++ "/" ++ "src/a.js") =
      lstripChar '/' ("/" ++ "src/a.js") ∧
    pyStartswith
      (normalize_finding_path "/tmp/semgrep-scan-abc123"
        ("/tmp/semgrep-scan-abc123" ++ "/" ++ "src/a.js")) "/" = false ∧
    pyStartswith
      (normalize_finding_path "/tmp/semgrep-scan-abc123"
        ("/tmp/semgrep-scan-abc123" ++ "/" ++ "src/a.js"))
      "/tmp/semgrep-scan-abc123" = false :=
  ⟨(claim_C5_amended "/tmp/semgrep-scan-abc123" "src/a.js"
      ("/tmp/semgrep-scan-abc123" ++ "/" ++ "src/a.js")
      (by decide) rfl (by decide)).1,
   (claim_C5_amended "/tmp/semgrep-scan-abc123" "src/a.js"
      ("/tmp/semgrep-scan-abc123" ++ "/" ++ "src/a.js")
      (by decide) rfl (by decide)).2.1,
   (claim_C5_amended "/tmp/semgrep-scan-abc123" "src/a.js"
      ("/tmp/semgrep-scan-abc123" ++ "/" ++ "src/a.js")
      (by decide) rfl (by decide)).2.2.1⟩

end SemgrepService
